import Mathlib

/-
Verification of the conversational-agent repository (agent.py, tools.py,
app.py) against its natural-language specification.

This file contains a shallow embedding of the Python source.  External
collaborators are parameters collected in `Env`:
  * `ollama.chat`     — modelled as `Env.chat`, an oracle indexed by the
                        number of outbound model calls made so far, so the
                        theorems can speak about how many model calls a
                        turn performs.  (The real call also receives the
                        message stack; since the oracle may behave
                        arbitrarily at every index, indexing by call count
                        loses no generality for a single deterministic run.)
  * `json.loads`      — `Env.loads`, producing an arbitrary JSON value or a
                        decoding failure.
  * `profile.json`    — `Env.profileFile`, the parsed profile file, or an
                        error (missing file / undecodable file).
  * gspread           — `Env.sheets` (credential loading + spreadsheet +
                        worksheet resolution, yielding the worksheet title)
                        and `Env.appendRow`; `Env.timestamp` stands for
                        `datetime.utcnow().isoformat()`.

Python exceptions are modelled with `Except PyErr`; Python dicts are
association lists with first-match lookup (real dicts have unique keys);
Python truthiness, `str.lower`, `str.strip`, iteration, slicing and
`str.join` are given executable models below.  The exact text rendered by
`str()` for non-string JSON values inside f-strings is approximated
(`pyStr` on containers); no theorem depends on that rendering.
-/

set_option maxHeartbeats 1000000

namespace AgentProfile

/-- JSON values, as produced by `json.loads` and stored in `profile.json`.
Python `None` arising from a JSON `null` is `Json.null`. -/
inductive Json where
  | null
  | jbool (b : Bool)
  | num (n : Int)
  | str (s : String)
  | arr (elems : List Json)
  | obj (fields : List (String × Json))

/-- Python exception classes relevant to the embedded code. -/
inductive PyErr where
  | attributeError
  | typeError
  | valueError
  | fileNotFoundError
  | otherError
  deriving DecidableEq, Repr

/-- The dictionary `run_agent` returns: keys `response`, `lead_logged`,
`lead_payload` (exactly these three, by construction of every `return`). -/
structure TurnResult where
  response : String
  lead_logged : Bool
  lead_payload : Option (List (String × Json))

/-- External collaborators of the two modules (see header comment). -/
structure Env where
  chat : Nat → Except PyErr String
  loads : String → Except PyErr Json
  profileFile : Except PyErr Json
  sheets : Except PyErr String
  appendRow : List Json → Except PyErr Unit
  timestamp : String

/-- Python `str.lower` (ASCII-faithful), made to compute on `String.data`. -/
def pyLower (s : String) : String :=
  ⟨s.data.map Char.toLower⟩

/-- Python `str.strip` with no argument: drop whitespace at both ends. -/
def pyStripChars (cs : List Char) : List Char :=
  ((cs.dropWhile Char.isWhitespace).reverse.dropWhile Char.isWhitespace).reverse

/-- Python `str.strip` on strings. -/
def pyStrip (s : String) : String :=
  ⟨pyStripChars s.data⟩

/-- Substring test: Python `needle in haystack`. -/
def strContainsSub (haystack needle : String) : Bool :=
  (List.range (haystack.data.length + 1)).any
    (fun i => needle.data.isPrefixOf (haystack.data.drop i))

/-- First-match lookup in a Python dict modelled as an association list. -/
def dictLookup : List (String × Json) → String → Option Json
  | [], _ => none
  | (k, v) :: rest, key => if k = key then some v else dictLookup rest key

/-- Python `key in dict` / `dict.keys()` membership. -/
def dictHasKey (fields : List (String × Json)) (key : String) : Bool :=
  (dictLookup fields key).isSome

/-- Python truthiness of a JSON value. -/
def Json.truthy : Json → Bool
  | .null => false
  | .jbool b => b
  | .num n => n != 0
  | .str s => s != ""
  | .arr elems => !elems.isEmpty
  | .obj fields => !fields.isEmpty

/-- Truthiness of `dict.get(k)`: `None` (absent) is falsy. -/
def pyTruthy : Option Json → Bool
  | none => false
  | some j => j.truthy

/-- Python dict merge `\x7b**a, **b\x7d`: the keys of `a` in order with values
overridden by `b` where present, then the keys of `b` not in `a`. -/
def dictMerge (a b : List (String × Json)) : List (String × Json) :=
  a.map (fun kv => (kv.1, (dictLookup b kv.1).getD kv.2)) ++
    b.filter (fun kv => !(dictHasKey a kv.1))

/-- `.get`/`.keys`/`**`-unpacking on a value that must be a mapping; any
non-dict raises (AttributeError / TypeError — collapsed, both are caught
by the same `except Exception` wherever the embedded code handles them). -/
def asDict : Json → Except PyErr (List (String × Json))
  | .obj fields => .ok fields
  | _ => .error .attributeError

/-- Python iteration `for x in v`: lists yield elements, strings yield
1-character strings, dicts yield their keys, anything else raises. -/
def pyIter : Json → Except PyErr (List Json)
  | .arr elems => .ok elems
  | .str s => .ok (s.data.map (fun c => Json.str (String.singleton c)))
  | .obj fields => .ok (fields.map (fun kv => Json.str kv.1))
  | _ => .error .typeError

/-- Python slice `v[:5]`: lists and strings slice, anything else raises. -/
def pySliceFive : Json → Except PyErr (List Json)
  | .arr elems => .ok (elems.take 5)
  | .str s => .ok ((s.data.take 5).map (fun c => Json.str (String.singleton c)))
  | _ => .error .typeError

/-- Python `str(v)` as used inside f-strings.  Container rendering is
approximated; no theorem depends on it. -/
def pyStr : Json → String
  | .null => "None"
  | .jbool b => if b then "True" else "False"
  | .num n => toString n
  | .str s => s
  | .arr _ => "[...]"
  | .obj _ => "(dict)"

/-- `str(dict.get(k))`: an absent key prints as `None`. -/
def pyStrOpt : Option Json → String
  | none => "None"
  | some j => pyStr j

/-- Python `sep.join(v)`: iterate `v`; every element must be a string. -/
def pyJoin (sep : String) (j : Json) : Except PyErr String := do
  let elems ← pyIter j
  let strs ← elems.mapM (fun e =>
    match e with
    | Json.str s => Except.ok s
    | _ => Except.error PyErr.typeError)
  pure (String.intercalate sep strs)

/- ----------------------------------------------------------------
   tools.py
   ---------------------------------------------------------------- -/

/-- tools.py `_load_profile`: the lazily-cached parse of `profile.json`.
The cache is semantically transparent (the file is read at most once and
its parsed value is constant), so it is the value held by the environment. -/
def load_profile (env : Env) : Except PyErr Json :=
  env.profileFile

/-- The `for key, value in profile.items()` scan of `get_profile_section`:
first key whose `key.lower()` equals the normalized name. -/
def sectionScan : List (String × Json) → String → Option Json
  | [], _ => none
  | (key, value) :: rest, normalized =>
      if pyLower key = normalized then some value else sectionScan rest normalized

/-- tools.py `get_profile_section(section_name)`. -/
def get_profile_section (env : Env) (section_name : String) :
    Except PyErr (Option Json) :=
  if section_name = "" then .ok none
  else
    match load_profile env with
    | .error e => .error e
    | .ok profile =>
      match profile with
      | .obj items => .ok (sectionScan items (pyStrip (pyLower section_name)))
      | _ => .error .attributeError

/-- The `for project in projects` scan of `get_project_details`:
`project.get("name", "").lower() == normalized`, first match wins; a
non-dict entry or a non-string name raises AttributeError. -/
def projectScan : List Json → String → Except PyErr (Option Json)
  | [], _ => .ok none
  | project :: rest, normalized =>
    match project with
    | .obj fields =>
      match (dictLookup fields "name").getD (Json.str "") with
      | .str s =>
          if pyLower s = normalized then .ok (some (Json.obj fields))
          else projectScan rest normalized
      | _ => .error .attributeError
    | _ => .error .attributeError

/-- tools.py `get_project_details(project_name)`. -/
def get_project_details (env : Env) (project_name : String) :
    Except PyErr (Option Json) :=
  if project_name = "" then .ok none
  else
    match load_profile env with
    | .error e => .error e
    | .ok profile =>
      match profile with
      | .obj items =>
        match pyIter ((dictLookup items "projects").getD (Json.arr [])) with
        | .error e => .error e
        | .ok projects => projectScan projects (pyStrip (pyLower project_name))
      | _ => .error .attributeError

/-- tools.py `required_keys` of `log_recruiter_lead` — note it is FIVE keys,
`notes` included, and the check is key presence, not non-emptiness. -/
def requiredLeadKeys : List String :=
  ["recruiter_name", "company", "role", "contact", "notes"]

/-- tools.py `log_recruiter_lead(lead)`: validate the five keys, then
authenticate, resolve the worksheet, append the row, and return
`status`/`timestamp`/`worksheet` metadata. -/
def log_recruiter_lead (env : Env) (lead : Json) :
    Except PyErr (List (String × Json)) :=
  match lead with
  | .obj fields =>
    if !((requiredLeadKeys.filter (fun k => !(dictHasKey fields k))).isEmpty) then
      .error .valueError
    else
      match env.sheets with
      | .error e => .error e
      | .ok worksheetTitle =>
        let row : List Json :=
          [Json.str env.timestamp,
           (dictLookup fields "recruiter_name").getD (Json.str ""),
           (dictLookup fields "company").getD (Json.str ""),
           (dictLookup fields "role").getD (Json.str ""),
           (dictLookup fields "contact").getD (Json.str ""),
           (dictLookup fields "notes").getD (Json.str "")]
        match env.appendRow row with
        | .error e => .error e
        | .ok _ =>
          .ok [("status", Json.str "success"),
               ("timestamp", Json.str env.timestamp),
               ("worksheet", Json.str worksheetTitle)]
  | _ => .error .attributeError

/- ----------------------------------------------------------------
   agent.py
   ---------------------------------------------------------------- -/

/-- agent.py `_looks_like_recruiter_message`. -/
def looks_like_recruiter_message (text : String) : Bool :=
  let lower := pyLower text
  (["hiring", "recruiter", "role", "position", "job", "opening"].any
      (fun k => strContainsSub lower k)) &&
  (["email", "@", "contact", "reach", "phone"].any
      (fun k => strContainsSub lower k))

/-- agent.py `_extract_recruiter_lead`: one model call; on any failure of
the call or of `json.loads` the `except` returns `(None, "")`.  The user
text goes into the extraction prompt, which the indexed oracle already
accounts for.  Returns the (lead, stripped raw content) pair together with
the updated model-call count. -/
def extract_recruiter_lead (env : Env) (calls : Nat) (_text : String) :
    (Option Json × String) × Nat :=
  match env.chat calls with
  | .error _ => ((none, ""), calls + 1)
  | .ok raw =>
    let content := pyStrip raw
    match env.loads content with
    | .error _ => ((none, ""), calls + 1)
    | .ok lead => ((some lead, content), calls + 1)

/-- agent.py `_has_minimum_lead_fields`: falsy leads are incomplete; on a
dict, the four first fields must all be truthy; `.get` on a truthy
non-dict raises AttributeError. -/
def has_minimum_lead_fields (lead : Json) : Except PyErr Bool :=
  if !lead.truthy then .ok false
  else
    match lead with
    | .obj fields =>
      .ok (pyTruthy (dictLookup fields "recruiter_name") &&
           pyTruthy (dictLookup fields "company") &&
           pyTruthy (dictLookup fields "role") &&
           pyTruthy (dictLookup fields "contact"))
    | _ => .error .attributeError

def eduKeywords : List String := ["education", "degree", "university", "college"]

def expKeywords : List String := ["experience", "work", "job", "roles", "kyndryl", "ibm"]

def skillKeywords : List String := ["skill", "stack", "tech", "tools"]

/-- One education line of `_build_profile_context`. -/
def eduLine (e : Json) : Except PyErr String := do
  let fields ← asDict e
  pure ("- " ++ pyStrOpt (dictLookup fields "degree") ++ " at " ++
        pyStrOpt (dictLookup fields "institution") ++ " (" ++
        pyStrOpt (dictLookup fields "period") ++ ")")

/-- One experience line of `_build_profile_context`. -/
def expLine (e : Json) : Except PyErr String := do
  let fields ← asDict e
  pure ("- " ++ pyStrOpt (dictLookup fields "title") ++ " at " ++
        pyStrOpt (dictLookup fields "company") ++ " (" ++
        pyStrOpt (dictLookup fields "period") ++ ")")

/-- One project line of `_build_profile_context`. -/
def projLine (p : Json) : Except PyErr String := do
  let fields ← asDict p
  pure ("- " ++ pyStrOpt (dictLookup fields "name") ++ ": " ++
        pyStrOpt (dictLookup fields "description"))

/-- agent.py `_build_profile_context`: four keyword-gated blocks, joined by
blank lines.  Runs before the try of `_answer_with_profile`, so any
exception it raises propagates out of `run_agent`. -/
def build_profile_context (env : Env) (user_message : String) :
    Except PyErr String := do
  let lower := pyLower user_message
  let parts0 : List String := []
  let parts1 ←
    if eduKeywords.any (fun k => strContainsSub lower k) then do
      let edu ← get_profile_section env "education"
      if pyTruthy edu then do
        let entries ← pyIter (edu.getD Json.null)
        let lines ← entries.mapM eduLine
        pure (parts0 ++ ["Education:\n" ++ String.intercalate "\n" lines])
      else pure parts0
    else pure parts0
  let parts2 ←
    if expKeywords.any (fun k => strContainsSub lower k) then do
      let exp ← get_profile_section env "experience"
      if pyTruthy exp then do
        let entries ← pyIter (exp.getD Json.null)
        let lines ← entries.mapM expLine
        pure (parts1 ++ ["Experience:\n" ++ String.intercalate "\n" lines])
      else pure parts1
    else pure parts1
  let parts3 ←
    if skillKeywords.any (fun k => strContainsSub lower k) then do
      let skills ← get_profile_section env "skills"
      if pyTruthy skills then do
        let fields ← asDict (skills.getD Json.null)
        let langs ← pyJoin ", " ((dictLookup fields "languages").getD (Json.arr []))
        let mldl ← pyJoin ", " ((dictLookup fields "ml_dl").getD (Json.arr []))
        let tls ← pyJoin ", " ((dictLookup fields "tools").getD (Json.arr []))
        let doms ← pyJoin ", " ((dictLookup fields "domains").getD (Json.arr []))
        pure (parts2 ++
          ["Skills:\n- Languages: " ++ langs ++ "\n- ML/DL: " ++ mldl ++
           "\n- Tools: " ++ tls ++ "\n- Domains: " ++ doms])
      else pure parts2
    else pure parts2
  let parts4 ←
    if strContainsSub lower "project" then do
      let projs ← get_profile_section env "projects"
      if pyTruthy projs then do
        let subset ← pySliceFive (projs.getD Json.null)
        let lines ← subset.mapM projLine
        pure (parts3 ++ ["Projects (subset):\n" ++ String.intercalate "\n" lines])
      else pure parts3
    else pure parts3
  pure (String.intercalate "\n\n" parts4)

/-- The fixed follow-up request of `run_agent` when the lead is missing or
incomplete. -/
def followUpReply : String :=
  "Thanks for reaching out about a potential opportunity!\n\n" ++
  "To properly record this, could you please share:\n" ++
  "- Your name\n- Company\n- Role you\x27re hiring for\n- Best contact email or phone\n"

/-- The fixed reply of `run_agent` when `log_recruiter_lead` raises. -/
def loggingIssueReply : String :=
  "Thanks for your interest and for sharing your details. " ++
  "I attempted to record your information but ran into an internal logging issue. " ++
  "You can also share your details via email at mayankpokhriyal96@gmail.com."

/-- The fixed reply of `_answer_with_profile` when `ollama.chat` raises. -/
def modelDownReply : String :=
  "I ran into an issue talking to my local AI engine (Ollama). " ++
  "Please make sure the Ollama server is running and the model is available."

/-- The fixed reply of `_answer_with_profile` when the model returns an
empty (or all-whitespace) message. -/
def rephraseReply : String :=
  "I heard your question, but I\x27m not sure how to answer that. Could you rephrase?"

/-- The acknowledgment reply built inside the try-block of `run_agent`. -/
def successReply (fields : List (String × Json)) : String :=
  "Thank you for reaching out about this opportunity.\n\n" ++
  "I\x27ve recorded your details as:\n" ++
  "- Name: " ++ pyStrOpt (dictLookup fields "recruiter_name") ++ "\n" ++
  "- Company: " ++ pyStrOpt (dictLookup fields "company") ++ "\n" ++
  "- Role: " ++ pyStrOpt (dictLookup fields "role") ++ "\n" ++
  "- Contact: " ++ pyStrOpt (dictLookup fields "contact") ++ "\n" ++
  "- Notes: " ++ pyStr ((dictLookup fields "notes").getD (Json.str "")) ++ "\n\n" ++
  "I\x27ll review this role and get back to you as soon as possible."

/-- agent.py `_answer_with_profile`: build the profile context (outside the
try — its exceptions propagate), then one model call; a failing call or an
empty reply yields the corresponding fixed text, otherwise the stripped
model content is the answer.  The history only feeds the message stack,
which the indexed oracle accounts for. -/
def answer_with_profile (env : Env) (calls : Nat) (user_message : String)
    (_history : List (String × String)) : Except PyErr (String × Nat) :=
  match build_profile_context env user_message with
  | .error e => .error e
  | .ok _snippets =>
    match env.chat calls with
    | .error _ => .ok (modelDownReply, calls + 1)
    | .ok raw =>
      let content := pyStrip raw
      if content = "" then .ok (rephraseReply, calls + 1)
      else .ok (content, calls + 1)

/-- The try-block in the recruiter branch of `run_agent`: log the lead, then
build the merged payload and the acknowledgment; ANY exception in it is
caught by the enclosing `except Exception`. -/
def recruiter_success_branch (env : Env) (lead : Json) :
    Except PyErr TurnResult :=
  match log_recruiter_lead env lead with
  | .error e => .error e
  | .ok logResult =>
    match asDict lead with
    | .error e => .error e
    | .ok fields =>
      .ok { response := successReply fields
            lead_logged := true
            lead_payload := some (dictMerge fields logResult) }

/-- The recruiter branch of `run_agent` after extraction: the Python
condition `if lead and _has_minimum_lead_fields(lead)` (short-circuit:
the field check only runs on a truthy lead and its AttributeError
propagates), the guarded try/except around the logging block, and the
follow-up request otherwise. -/
def recruiter_turn (env : Env) (extracted : Option Json) (calls1 : Nat) :
    Except PyErr (TurnResult × Nat) :=
  match extracted with
  | some lead =>
    if lead.truthy then
      match has_minimum_lead_fields lead with
      | .error e => .error e
      | .ok true =>
        match recruiter_success_branch env lead with
        | .ok result => .ok (result, calls1)
        | .error _ =>
          .ok ({ response := loggingIssueReply, lead_logged := false,
                 lead_payload := none }, calls1)
      | .ok false =>
        .ok ({ response := followUpReply, lead_logged := false,
               lead_payload := none }, calls1)
    else
      .ok ({ response := followUpReply, lead_logged := false,
             lead_payload := none }, calls1)
  | none =>
    .ok ({ response := followUpReply, lead_logged := false,
           lead_payload := none }, calls1)

/-- The Q&A tail of `run_agent`: wrap the answer of
`_answer_with_profile` into the returned dictionary (its exceptions
propagate). -/
def qa_turn (res : Except PyErr (String × Nat)) : Except PyErr (TurnResult × Nat) :=
  match res with
  | .error e => .error e
  | .ok p =>
    .ok ({ response := p.1, lead_logged := false, lead_payload := none }, p.2)

/-- agent.py `run_agent(user_message, chat_history)`: recruiter detection,
lead extraction and logging, otherwise profile Q&A.  Takes and returns the
model-call counter; a result `.error e` is an exception propagating to the
caller (app.py). -/
def run_agent (env : Env) (user_message : String)
    (chat_history : List (String × String)) (calls : Nat) :
    Except PyErr (TurnResult × Nat) :=
  if looks_like_recruiter_message user_message then
    let extractedPair := extract_recruiter_lead env calls user_message
    recruiter_turn env extractedPair.1.1 extractedPair.2
  else
    qa_turn (answer_with_profile env calls user_message chat_history)

/- ----------------------------------------------------------------
   Concrete data and environments used by witnesses and counterexamples
   ---------------------------------------------------------------- -/

/-- A fully-populated extracted lead, as the extraction model is prompted
to produce. -/
def goodLeadFields : List (String × Json) :=
  [("recruiter_name", Json.str "Ana Gomez"),
   ("company", Json.str "Acme"),
   ("role", Json.str "ML Engineer"),
   ("contact", Json.str "ana@acme.com"),
   ("notes", Json.str "remote ok")]

/-- The raw model text that decodes to `goodLeadFields`. -/
def goodLeadText : String :=
  "\x7b\"recruiter_name\": \"Ana Gomez\", \"company\": \"Acme\", " ++
  "\"role\": \"ML Engineer\", \"contact\": \"ana@acme.com\", \"notes\": \"remote ok\"\x7d"

/-- A `json.loads` behaviour that decodes `goodLeadText` and rejects
everything else. -/
def goodLoads (s : String) : Except PyErr Json :=
  if s = goodLeadText then .ok (Json.obj goodLeadFields) else .error .valueError

/-- The education entry of the sample profile. -/
def eduEntry : Json :=
  Json.obj [("degree", Json.str "MSc Data Science"),
            ("institution", Json.str "X University"),
            ("period", Json.str "2020-2022")]

/-- The single project record of the sample profile. -/
def sampleProjectFields : List (String × Json) :=
  [("name", Json.str "Churn Model"),
   ("description", Json.str "Predicts customer churn.")]

/-- A well-formed parsed `profile.json` used as sample data. -/
def sampleProfileFields : List (String × Json) :=
  [("skills", Json.obj [("languages", Json.arr [Json.str "Python"]),
                        ("ml_dl", Json.arr [Json.str "PyTorch"]),
                        ("tools", Json.arr [Json.str "Docker"]),
                        ("domains", Json.arr [Json.str "NLP"])]),
   ("job_preferences", Json.str "Remote"),
   ("education", Json.arr [eduEntry]),
   ("projects", Json.arr [Json.obj sampleProjectFields])]

/-- Benign environment: model yields `goodLeadText`, decoding and the
sheet sink succeed. -/
def okEnv : Env :=
  { chat := fun _ => .ok goodLeadText
    loads := goodLoads
    profileFile := .ok (Json.obj sampleProfileFields)
    sheets := .ok "Recruiter_Leads"
    appendRow := fun _ => .ok ()
    timestamp := "2026-10-12T00:00:00" }

/-- A recruiter-sounding user message. -/
def recruiterMsg : String := "I am hiring for a role, reach me at hr@acme.com"

/-- The raw text of a model that always asks for a tool call and never
emits a terminal respond action. -/
def toolCallText : String :=
  "\x7b\"action\": \"tool\", \"tool_name\": \"get_profile_section\", \"action_input\": \x7b\x7d\x7d"

/-- Environment whose model always answers with `toolCallText` (which
`json.loads` decodes successfully to the corresponding object). -/
def loopEnv : Env :=
  { okEnv with
    chat := fun _ => .ok toolCallText
    loads := fun s =>
      if s = toolCallText then
        .ok (Json.obj [("action", Json.str "tool"),
                       ("tool_name", Json.str "get_profile_section"),
                       ("action_input", Json.obj [])])
      else .error .valueError }

/-- Environment whose model replies with plain prose, which `json.loads`
rejects. -/
def plainTextEnv : Env :=
  { okEnv with
    chat := fun _ => .ok "hello there"
    loads := fun _ => .error .valueError }

/-- Environment whose model call always raises (Ollama unreachable). -/
def failChatEnv : Env :=
  { okEnv with chat := fun _ => .error .otherError }

/-- Environment whose model answers `[1]`: valid JSON that decodes to a
(truthy, non-dict) list. -/
def listLeadEnv : Env :=
  { okEnv with
    chat := fun _ => .ok "[1]"
    loads := fun s => if s = "[1]" then .ok (Json.arr [Json.num 1]) else .error .valueError }

/-- Environment whose sheet append raises (sink failure). -/
def sinkFailEnv : Env :=
  { okEnv with appendRow := fun _ => .error .otherError }

/-- A four-field lead: all four spec-required fields present and non-empty,
`notes` absent. -/
def fourFieldLead : List (String × Json) :=
  [("recruiter_name", Json.str "Ana"),
   ("company", Json.str "Acme"),
   ("role", Json.str "ML Engineer"),
   ("contact", Json.str "ana@acme.com")]

/-- A stored project whose name carries a trailing space. -/
def wsProjFields : List (String × Json) :=
  [("name", Json.str "ml ")]

/-- Environment whose profile stores only the whitespace-named project. -/
def wsProjEnv : Env :=
  { okEnv with
    profileFile := .ok (Json.obj [("projects", Json.arr [Json.obj wsProjFields])]) }

/-- The sink metadata `log_recruiter_lead` returns in `okEnv`. -/
def okLogMeta : List (String × Json) :=
  [("status", Json.str "success"),
   ("timestamp", Json.str "2026-10-12T00:00:00"),
   ("worksheet", Json.str "Recruiter_Leads")]

/-- The `TurnResult` produced by `run_agent okEnv recruiterMsg [] 0`. -/
def okTurn : TurnResult :=
  { response := successReply goodLeadFields
    lead_logged := true
    lead_payload := some (dictMerge goodLeadFields okLogMeta) }

/-- The `TurnResult` of the Q&A turn `run_agent loopEnv "hello" [] 0`. -/
def loopTurn : TurnResult :=
  { response := toolCallText
    lead_logged := false
    lead_payload := none }

/-- Boolean form of the per-entry matching discipline of `get_project_details`,
used to state theorems about the scan. -/
def projNameMatches (normalized : String) (p : Json) : Bool :=
  match p with
  | .obj fields =>
    match (dictLookup fields "name").getD (Json.str "") with
    | .str s => pyLower s = normalized
    | _ => false
  | _ => false

/-- A project entry the scan can inspect without raising: a dict whose
`name` (if any) is a string. -/
def cleanProject (p : Json) : Bool :=
  match p with
  | .obj fields =>
    match (dictLookup fields "name").getD (Json.str "") with
    | .str _ => true
    | _ => false
  | _ => false

/- ----------------------------------------------------------------
   Helper lemmas
   ---------------------------------------------------------------- -/

theorem dictLookup_append_some (a b : List (String × Json)) (k : String) (v : Json)
    (h : dictLookup a k = some v) : dictLookup (a ++ b) k = some v := by
  induction a with
  | nil => simp [dictLookup] at h
  | cons kv rest ih =>
    obtain ⟨k0, v0⟩ := kv
    by_cases h0 : k0 = k
    · simp [dictLookup, h0] at h ⊢; exact h
    · simp [dictLookup, h0] at h ⊢; exact ih h

theorem dictLookup_append_none (a b : List (String × Json)) (k : String)
    (h : dictLookup a k = none) : dictLookup (a ++ b) k = dictLookup b k := by
  induction a with
  | nil => simp
  | cons kv rest ih =>
    obtain ⟨k0, v0⟩ := kv
    by_cases h0 : k0 = k
    · simp [dictLookup, h0] at h
    · simp [dictLookup, h0] at h ⊢; exact ih h

theorem dictLookup_mergeMap (a b : List (String × Json)) (k : String) :
    dictLookup (a.map (fun kv => (kv.1, (dictLookup b kv.1).getD kv.2))) k =
      (dictLookup a k).map (fun v => (dictLookup b k).getD v) := by
  induction a with
  | nil => simp [dictLookup]
  | cons kv rest ih =>
    obtain ⟨k0, v0⟩ := kv
    by_cases h : k0 = k
    · subst h; simp [dictLookup]
    · simp [dictLookup, h, ih]

theorem dictLookup_filter_keep (b : List (String × Json)) (p : String × Json → Bool)
    (k : String) (hp : ∀ v, p (k, v) = true) :
    dictLookup (b.filter p) k = dictLookup b k := by
  induction b with
  | nil => rfl
  | cons kv rest ih =>
    obtain ⟨k0, v0⟩ := kv
    by_cases h : k0 = k
    · subst h; simp [List.filter_cons, hp v0, dictLookup]
    · cases hpv : p (k0, v0) <;> simp [List.filter_cons, hpv, dictLookup, h, ih]

theorem dictLookup_filter_none (b : List (String × Json)) (p : String × Json → Bool)
    (k : String) (hb : dictLookup b k = none) :
    dictLookup (b.filter p) k = none := by
  induction b with
  | nil => rfl
  | cons kv rest ih =>
    obtain ⟨k0, v0⟩ := kv
    by_cases h : k0 = k
    · subst h; simp [dictLookup] at hb
    · have hb' : dictLookup rest k = none := by
        simpa [dictLookup, h] using hb
      cases hpv : p (k0, v0) <;> simp [List.filter_cons, hpv, dictLookup, h, ih hb']

theorem dictMerge_lookup_right (a b : List (String × Json)) (k : String) (v : Json)
    (hb : dictLookup b k = some v) :
    dictLookup (dictMerge a b) k = some v := by
  unfold dictMerge
  cases ha : dictLookup a k with
  | some w =>
    have h1 : dictLookup
        (a.map (fun kv => (kv.1, (dictLookup b kv.1).getD kv.2))) k = some v := by
      rw [dictLookup_mergeMap, ha, hb]; rfl
    exact dictLookup_append_some _ _ _ _ h1
  | none =>
    have h1 : dictLookup
        (a.map (fun kv => (kv.1, (dictLookup b kv.1).getD kv.2))) k = none := by
      rw [dictLookup_mergeMap, ha]; rfl
    rw [dictLookup_append_none _ _ _ h1, dictLookup_filter_keep]
    · exact hb
    · intro v'; simp [dictHasKey, ha]

theorem dictMerge_lookup_left (a b : List (String × Json)) (k : String)
    (hb : dictLookup b k = none) :
    dictLookup (dictMerge a b) k = dictLookup a k := by
  unfold dictMerge
  cases ha : dictLookup a k with
  | some w =>
    have h1 : dictLookup
        (a.map (fun kv => (kv.1, (dictLookup b kv.1).getD kv.2))) k = some w := by
      rw [dictLookup_mergeMap, ha, hb]; rfl
    rw [dictLookup_append_some _ _ _ _ h1]
  | none =>
    have h1 : dictLookup
        (a.map (fun kv => (kv.1, (dictLookup b kv.1).getD kv.2))) k = none := by
      rw [dictLookup_mergeMap, ha]; rfl
    rw [dictLookup_append_none _ _ _ h1, dictLookup_filter_none b _ k hb]

theorem extract_recruiter_lead_calls (env : Env) (calls : Nat) (t : String) :
    (extract_recruiter_lead env calls t).2 = calls + 1 := by
  unfold extract_recruiter_lead
  cases hc : env.chat calls with
  | error e => rfl
  | ok raw => cases hl : env.loads (pyStrip raw) <;> simp [hl]

/- ----------------------------------------------------------------
   C1
   ---------------------------------------------------------------- -/

/-- C1 (counterexample): a model that never emits a terminal respond
action — it always answers with the tool-call object — does NOT make
`run_agent` iterate `MAX_LOOPS = 5` model-call/tool-dispatch rounds and
return a fallback apology: on the turn `"hello"` the loop-free code makes
exactly 1 model call (the counter goes 0 to 1, and 1 is not 5) and returns
the raw tool-call text of the model as the response. -/
theorem C1_counterexample :
    run_agent loopEnv "hello" [] 0 =
      Except.ok ({ response := toolCallText, lead_logged := false,
                   lead_payload := none }, 1) ∧
    (1 : Nat) ≠ 5 :=
  ⟨rfl, by decide⟩

/-- C1 (amended): `run_agent` contains no model-call/tool-dispatch loop at
all: every turn that returns normally performs exactly one model call —
the lead-extraction call on recruiter-like messages, or the single answer
call otherwise — regardless of whether the model ever emits a terminal
respond action, and no loop-exhaustion fallback text exists. -/
theorem C1_exactly_one_model_call (env : Env) (m : String)
    (hist : List (String × String)) (n n' : Nat) (tr : TurnResult)
    (hrun : run_agent env m hist n = Except.ok (tr, n')) : n' = n + 1 := by
  unfold run_agent at hrun
  by_cases hr : looks_like_recruiter_message m = true
  · rw [if_pos hr] at hrun
    rcases hex : extract_recruiter_lead env n m with ⟨⟨l, raw⟩, c⟩
    rw [hex] at hrun
    dsimp only at hrun
    have hc : c = n + 1 := by
      have h2 := extract_recruiter_lead_calls env n m
      rw [hex] at h2
      exact h2
    subst hc
    cases l with
    | none =>
      simp [recruiter_turn] at hrun
      omega
    | some lead =>
      simp only [recruiter_turn] at hrun
      by_cases ht : lead.truthy = true
      · rw [if_pos ht] at hrun
        cases hmin : has_minimum_lead_fields lead with
        | error e => rw [hmin] at hrun; simp at hrun
        | ok b =>
          rw [hmin] at hrun
          cases b with
          | true =>
            cases hbr : recruiter_success_branch env lead with
            | ok result => rw [hbr] at hrun; simp at hrun; omega
            | error e => rw [hbr] at hrun; simp at hrun; omega
          | false => simp at hrun; omega
      · rw [if_neg ht] at hrun
        simp at hrun
        omega
  · rw [if_neg hr] at hrun
    cases ha : answer_with_profile env n m hist with
    | error e => rw [ha] at hrun; simp [qa_turn] at hrun
    | ok p =>
      obtain ⟨answer, c⟩ := p
      rw [ha] at hrun
      simp [qa_turn] at hrun
      have hc : c = n + 1 := by
        unfold answer_with_profile at ha
        cases hb : build_profile_context env m with
        | error e => rw [hb] at ha; simp at ha
        | ok ctx =>
          rw [hb] at ha
          cases hcall : env.chat n with
          | error e => rw [hcall] at ha; simp at ha; omega
          | ok raw =>
            rw [hcall] at ha
            dsimp only at ha
            by_cases hemp : pyStrip raw = ""
            · rw [if_pos hemp] at ha; simp at ha; omega
            · rw [if_neg hemp] at ha; simp at ha; omega
      omega

/-- C1 (witness for the amended theorem): the never-responding model of
`C1_counterexample` indeed drives exactly one model call. -/
theorem C1_exactly_one_model_call_witness :
    run_agent loopEnv "hello" [] 0 =
      Except.ok ({ response := toolCallText, lead_logged := false,
                   lead_payload := none }, 1) ∧
    (1 : Nat) = 0 + 1 :=
  ⟨rfl,
   C1_exactly_one_model_call loopEnv "hello" [] 0 1
     { response := toolCallText, lead_logged := false, lead_payload := none } rfl⟩

/- ----------------------------------------------------------------
   C2
   ---------------------------------------------------------------- -/

/-- C2: whenever `run_agent` returns a `TurnResult` with
`lead_logged = true`, `lead_payload` is present and contains the four
required lead fields with truthy values, plus the sink metadata:
`status = "success"` and the sink-provided timestamp. -/
theorem C2_lead_payload_complete (env : Env) (m : String)
    (hist : List (String × String)) (n n' : Nat) (tr : TurnResult)
    (hrun : run_agent env m hist n = Except.ok (tr, n'))
    (hlog : tr.lead_logged = true) :
    tr.lead_payload.isSome = true ∧
    pyTruthy (dictLookup (tr.lead_payload.getD []) "recruiter_name") = true ∧
    pyTruthy (dictLookup (tr.lead_payload.getD []) "company") = true ∧
    pyTruthy (dictLookup (tr.lead_payload.getD []) "role") = true ∧
    pyTruthy (dictLookup (tr.lead_payload.getD []) "contact") = true ∧
    dictLookup (tr.lead_payload.getD []) "status" = some (Json.str "success") ∧
    dictLookup (tr.lead_payload.getD []) "timestamp" = some (Json.str env.timestamp) := by
  unfold run_agent at hrun
  by_cases hr : looks_like_recruiter_message m = true
  case neg =>
    rw [if_neg hr] at hrun
    cases ha : answer_with_profile env n m hist with
    | error e => rw [ha] at hrun; simp [qa_turn] at hrun
    | ok p =>
      rw [ha] at hrun
      simp only [qa_turn] at hrun
      have hp := Except.ok.inj hrun
      have h1 : ({ response := p.1, lead_logged := false,
                   lead_payload := none } : TurnResult) = tr := congrArg Prod.fst hp
      rw [← h1] at hlog
      simp at hlog
  case pos =>
    rw [if_pos hr] at hrun
    rcases hex : extract_recruiter_lead env n m with ⟨⟨l, raw⟩, c⟩
    rw [hex] at hrun
    dsimp only at hrun
    cases l with
    | none =>
      simp only [recruiter_turn] at hrun
      have hp := Except.ok.inj hrun
      have h1 : ({ response := followUpReply, lead_logged := false,
                   lead_payload := none } : TurnResult) = tr := congrArg Prod.fst hp
      rw [← h1] at hlog
      simp at hlog
    | some lead =>
      simp only [recruiter_turn] at hrun
      by_cases ht : lead.truthy = true
      case neg =>
        rw [if_neg ht] at hrun
        have hp := Except.ok.inj hrun
        have h1 : ({ response := followUpReply, lead_logged := false,
                     lead_payload := none } : TurnResult) = tr := congrArg Prod.fst hp
        rw [← h1] at hlog
        simp at hlog
      case pos =>
        rw [if_pos ht] at hrun
        cases hmin : has_minimum_lead_fields lead with
        | error e => rw [hmin] at hrun; simp at hrun
        | ok b =>
          rw [hmin] at hrun
          cases b with
          | false =>
            dsimp only at hrun
            have hp := Except.ok.inj hrun
            have h1 : ({ response := followUpReply, lead_logged := false,
                         lead_payload := none } : TurnResult) = tr := congrArg Prod.fst hp
            rw [← h1] at hlog
            simp at hlog
          | true =>
            dsimp only at hrun
            cases hbr : recruiter_success_branch env lead with
            | error e =>
              rw [hbr] at hrun
              dsimp only at hrun
              have hp := Except.ok.inj hrun
              have h1 : ({ response := loggingIssueReply, lead_logged := false,
                           lead_payload := none } : TurnResult) = tr := congrArg Prod.fst hp
              rw [← h1] at hlog
              simp at hlog
            | ok result =>
              rw [hbr] at hrun
              dsimp only at hrun
              have hp := Except.ok.inj hrun
              have h1 : result = tr := congrArg Prod.fst hp
              -- dissect the success branch
              unfold recruiter_success_branch at hbr
              cases hlr : log_recruiter_lead env lead with
              | error e => rw [hlr] at hbr; simp at hbr
              | ok logResult =>
                rw [hlr] at hbr
                dsimp only at hbr
                cases had : asDict lead with
                | error e => rw [had] at hbr; simp at hbr
                | ok fields =>
                  rw [had] at hbr
                  dsimp only at hbr
                  have h2 := Except.ok.inj hbr
                  -- lead is the dict `fields`
                  have hleadobj : lead = Json.obj fields := by
                    cases lead <;> simp [asDict] at had
                    rw [had]
                  -- the four required fields are truthy
                  subst hleadobj
                  have hfour : pyTruthy (dictLookup fields "recruiter_name") = true ∧
                      pyTruthy (dictLookup fields "company") = true ∧
                      pyTruthy (dictLookup fields "role") = true ∧
                      pyTruthy (dictLookup fields "contact") = true := by
                    unfold has_minimum_lead_fields at hmin
                    rw [if_neg (by simp [ht])] at hmin
                    dsimp only at hmin
                    have h3 := Except.ok.inj hmin
                    simpa [Bool.and_eq_true, and_assoc] using h3
                  -- the sink metadata of `log_recruiter_lead`
                  have had2 : asDict (Json.obj fields) = Except.ok fields := rfl
                  have hfields : fields = fields := rfl
                  unfold log_recruiter_lead at hlr
                  dsimp only at hlr
                  by_cases hks :
                      ((requiredLeadKeys.filter
                        (fun k => !(dictHasKey fields k))).isEmpty) = true
                  case neg =>
                    rw [if_pos (by simp [hks])] at hlr
                    simp at hlr
                  case pos =>
                    rw [if_neg (by simp [hks])] at hlr
                    cases hs : env.sheets with
                    | error e => rw [hs] at hlr; simp at hlr
                    | ok ws =>
                      rw [hs] at hlr
                      dsimp only at hlr
                      cases hap : env.appendRow
                          [Json.str env.timestamp,
                           (dictLookup fields "recruiter_name").getD (Json.str ""),
                           (dictLookup fields "company").getD (Json.str ""),
                           (dictLookup fields "role").getD (Json.str ""),
                           (dictLookup fields "contact").getD (Json.str ""),
                           (dictLookup fields "notes").getD (Json.str "")] with
                      | error e => rw [hap] at hlr; simp at hlr
                      | ok u =>
                        rw [hap] at hlr
                        dsimp only at hlr
                        have h4 := Except.ok.inj hlr
                        -- assemble the payload facts
                        rw [← h1, ← h2, ← h4]
                        refine ⟨rfl, ?_, ?_, ?_, ?_, ?_, ?_⟩
                        · simp only [Option.getD_some]
                          rw [dictMerge_lookup_left fields
                              [("status", Json.str "success"),
                               ("timestamp", Json.str env.timestamp),
                               ("worksheet", Json.str ws)] "recruiter_name" rfl]
                          exact hfour.1
                        · simp only [Option.getD_some]
                          rw [dictMerge_lookup_left fields
                              [("status", Json.str "success"),
                               ("timestamp", Json.str env.timestamp),
                               ("worksheet", Json.str ws)] "company" rfl]
                          exact hfour.2.1
                        · simp only [Option.getD_some]
                          rw [dictMerge_lookup_left fields
                              [("status", Json.str "success"),
                               ("timestamp", Json.str env.timestamp),
                               ("worksheet", Json.str ws)] "role" rfl]
                          exact hfour.2.2.1
                        · simp only [Option.getD_some]
                          rw [dictMerge_lookup_left fields
                              [("status", Json.str "success"),
                               ("timestamp", Json.str env.timestamp),
                               ("worksheet", Json.str ws)] "contact" rfl]
                          exact hfour.2.2.2
                        · exact dictMerge_lookup_right fields
                            [("status", Json.str "success"),
                             ("timestamp", Json.str env.timestamp),
                             ("worksheet", Json.str ws)] "status" (Json.str "success") rfl
                        · exact dictMerge_lookup_right fields
                            [("status", Json.str "success"),
                             ("timestamp", Json.str env.timestamp),
                             ("worksheet", Json.str ws)] "timestamp"
                            (Json.str env.timestamp) rfl

/-- C2 (witness): a recruiter turn with a fully-populated extracted lead
and a healthy sink produces a logged lead whose payload carries the four
fields and the sink metadata. -/
theorem C2_lead_payload_complete_witness :
    okTurn.lead_payload.isSome = true ∧
    pyTruthy (dictLookup (okTurn.lead_payload.getD []) "recruiter_name") = true ∧
    pyTruthy (dictLookup (okTurn.lead_payload.getD []) "company") = true ∧
    pyTruthy (dictLookup (okTurn.lead_payload.getD []) "role") = true ∧
    pyTruthy (dictLookup (okTurn.lead_payload.getD []) "contact") = true ∧
    dictLookup (okTurn.lead_payload.getD []) "status" = some (Json.str "success") ∧
    dictLookup (okTurn.lead_payload.getD []) "timestamp" = some (Json.str okEnv.timestamp) :=
  C2_lead_payload_complete okEnv recruiterMsg [] 0 1 okTurn rfl rfl

/- ----------------------------------------------------------------
   C3
   ---------------------------------------------------------------- -/

/-- C3 (counterexample): a lead carrying all four spec-required fields
with non-empty values — but no `notes` key — is rejected by
`log_recruiter_lead` with the missing-fields ValueError, refuting
"fails if and only if one of the four required lead fields is absent". -/
theorem C3_counterexample :
    dictHasKey fourFieldLead "recruiter_name" = true ∧
    dictHasKey fourFieldLead "company" = true ∧
    dictHasKey fourFieldLead "role" = true ∧
    dictHasKey fourFieldLead "contact" = true ∧
    pyTruthy (dictLookup fourFieldLead "recruiter_name") = true ∧
    pyTruthy (dictLookup fourFieldLead "company") = true ∧
    pyTruthy (dictLookup fourFieldLead "role") = true ∧
    pyTruthy (dictLookup fourFieldLead "contact") = true ∧
    log_recruiter_lead okEnv (Json.obj fourFieldLead) = Except.error PyErr.valueError :=
  ⟨rfl, rfl, rfl, rfl, rfl, rfl, rfl, rfl, rfl⟩

theorem any_eq_not_isEmpty_filter (l : List String) (p : String → Bool) :
    l.any p = !((l.filter p).isEmpty) := by
  induction l with
  | nil => rfl
  | cons x rest ih =>
    cases hp : p x <;> simp [List.filter_cons, hp, List.any_cons, ih]

/-- C3 (amended): when the sink collaborators succeed,
`log_recruiter_lead` on a dict fails with the missing-fields ValueError
iff one of the FIVE keys `recruiter_name, company, role, contact, notes`
is absent (key presence only — empty values pass); separately, the
completeness gate `_has_minimum_lead_fields` holds iff the four first
fields are present and truthy (non-empty, for string values). -/
theorem C3_five_key_presence_check (env : Env) (fields : List (String × Json))
    (ws : String) (hs : env.sheets = Except.ok ws)
    (hrows : ∀ r, env.appendRow r = Except.ok ()) :
    (log_recruiter_lead env (Json.obj fields) = Except.error PyErr.valueError ↔
      (requiredLeadKeys.any (fun k => !(dictHasKey fields k))) = true) ∧
    (has_minimum_lead_fields (Json.obj fields) = Except.ok true ↔
      (pyTruthy (dictLookup fields "recruiter_name") = true ∧
       pyTruthy (dictLookup fields "company") = true ∧
       pyTruthy (dictLookup fields "role") = true ∧
       pyTruthy (dictLookup fields "contact") = true)) := by
  constructor
  · unfold log_recruiter_lead
    dsimp only
    rw [show (!((requiredLeadKeys.filter (fun k => !(dictHasKey fields k))).isEmpty)) =
        requiredLeadKeys.any (fun k => !(dictHasKey fields k)) from
      (any_eq_not_isEmpty_filter requiredLeadKeys _).symm]
    by_cases hany : requiredLeadKeys.any (fun k => !(dictHasKey fields k)) = true
    · rw [if_pos hany]
      simp [hany]
    · rw [if_neg hany, hs]
      dsimp only
      rw [hrows _]
      simp at hany
      simp [hany]
      exact hany
  · unfold has_minimum_lead_fields
    cases hemp : fields.isEmpty
    · rw [if_neg (by simp [Json.truthy, hemp])]
      dsimp only
      constructor
      · intro h
        have h3 := Except.ok.inj h
        simpa [Bool.and_eq_true, and_assoc] using h3
      · intro h
        obtain ⟨h1, h2, h3, h4⟩ := h
        rw [h1, h2, h3, h4]
        rfl
    · have hfields : fields = [] := List.isEmpty_iff.mp hemp
      subst hfields
      simp [Json.truthy, dictLookup, pyTruthy]

/-- C3 (witness): the amended characterization evaluated on a healthy
environment and the fully-populated lead. -/
theorem C3_five_key_presence_check_witness :
    (log_recruiter_lead okEnv (Json.obj goodLeadFields) = Except.error PyErr.valueError ↔
      (requiredLeadKeys.any (fun k => !(dictHasKey goodLeadFields k))) = true) ∧
    (has_minimum_lead_fields (Json.obj goodLeadFields) = Except.ok true ↔
      (pyTruthy (dictLookup goodLeadFields "recruiter_name") = true ∧
       pyTruthy (dictLookup goodLeadFields "company") = true ∧
       pyTruthy (dictLookup goodLeadFields "role") = true ∧
       pyTruthy (dictLookup goodLeadFields "contact") = true)) :=
  C3_five_key_presence_check okEnv goodLeadFields "Recruiter_Leads" rfl (fun _ => rfl)

/- ----------------------------------------------------------------
   C4
   ---------------------------------------------------------------- -/

/-- C4 (counterexample): on a plain-text model reply ("hello there",
rejected by `json.loads`) the extraction helper does not surface the raw
text as a fallback response: it returns `(None, "")`, discarding the raw
text entirely. -/
theorem C4_counterexample :
    plainTextEnv.chat 0 = Except.ok "hello there" ∧
    extract_recruiter_lead plainTextEnv 0 "hi" = ((none, ""), 1) ∧
    ("" : String) ≠ "hello there" :=
  ⟨rfl, rfl, by decide⟩

/-- C4 (amended): on any malformed model output — the model call raises,
or `json.loads` rejects the stripped content — `_extract_recruiter_lead`
never raises and returns `(None, "")` after exactly one model call; the
raw text is discarded rather than wrapped in a fallback respond action. -/
theorem C4_malformed_extraction_falls_back (env : Env) (calls : Nat) (text : String)
    (hfail : ∀ raw, env.chat calls = Except.ok raw →
      ∃ e, env.loads (pyStrip raw) = Except.error e) :
    extract_recruiter_lead env calls text = ((none, ""), calls + 1) := by
  unfold extract_recruiter_lead
  cases hc : env.chat calls with
  | error e => rfl
  | ok raw =>
    obtain ⟨e, he⟩ := hfail raw hc
    dsimp only
    rw [he]

/-- C4 (witness): the amended fallback behaviour on the plain-text model. -/
theorem C4_malformed_extraction_falls_back_witness :
    extract_recruiter_lead plainTextEnv 3 "recruiter ping" = ((none, ""), 4) :=
  C4_malformed_extraction_falls_back plainTextEnv 3 "recruiter ping"
    (fun _ _ => ⟨PyErr.valueError, rfl⟩)

/- ----------------------------------------------------------------
   C10
   ---------------------------------------------------------------- -/

/-- C10: on a recruiter-intent turn whose extracted lead passes the
completeness gate, if `log_recruiter_lead` raises any exception,
`run_agent` catches it and returns the fixed internal-logging-issue
apology with `lead_logged = false` and `lead_payload = None`; the
exception does not propagate to the caller. -/
theorem C10_logging_failure_contained (env : Env) (m : String)
    (hist : List (String × String)) (n : Nat) (lead : Json) (e : PyErr)
    (hrecr : looks_like_recruiter_message m = true)
    (hlead : (extract_recruiter_lead env n m).1.1 = some lead)
    (htruthy : lead.truthy = true)
    (hmin : has_minimum_lead_fields lead = Except.ok true)
    (hfail : log_recruiter_lead env lead = Except.error e) :
    run_agent env m hist n =
      Except.ok ({ response := loggingIssueReply, lead_logged := false,
                   lead_payload := none }, n + 1) := by
  have hbr : recruiter_success_branch env lead = Except.error e := by
    unfold recruiter_success_branch
    rw [hfail]
  unfold run_agent
  rw [if_pos hrecr]
  rcases hex : extract_recruiter_lead env n m with ⟨⟨l, raw⟩, c⟩
  have hc : c = n + 1 := by
    have h2 := extract_recruiter_lead_calls env n m
    rw [hex] at h2
    exact h2
  have hl : l = some lead := by
    rw [hex] at hlead
    exact hlead
  subst hc
  subst hl
  dsimp only
  simp only [recruiter_turn]
  rw [if_pos htruthy, hmin]
  dsimp only
  rw [hbr]

/-- C10 (witness): a failing sheet append on a fully-populated recruiter
turn yields the logging-issue apology and no logged lead. -/
theorem C10_logging_failure_contained_witness :
    run_agent sinkFailEnv recruiterMsg [] 0 =
      Except.ok ({ response := loggingIssueReply, lead_logged := false,
                   lead_payload := none }, 1) :=
  C10_logging_failure_contained sinkFailEnv recruiterMsg [] 0 (Json.obj goodLeadFields)
    PyErr.otherError rfl rfl rfl rfl rfl

/- ----------------------------------------------------------------
   C5
   ---------------------------------------------------------------- -/

/-- C5 (counterexample): the profile stores `skills` and
`job_preferences`, yet the lookups "skill", "job" and "preferences" all
return None: there is no alias table resolving them. -/
theorem C5_counterexample :
    (dictLookup sampleProfileFields "skills").isSome = true ∧
    (dictLookup sampleProfileFields "job_preferences").isSome = true ∧
    get_profile_section okEnv "skill" = Except.ok none ∧
    get_profile_section okEnv "job" = Except.ok none ∧
    get_profile_section okEnv "preferences" = Except.ok none :=
  ⟨rfl, rfl, rfl, rfl, rfl⟩

/-- C5 (amended): both lookups match case-insensitively — two non-empty
names with the same lowercasing give identical results in
`get_profile_section` and `get_project_details` — but no alias table is
consulted ("skill" does not resolve to "skills", see the
counterexample). -/
theorem C5_case_insensitive_lookup (env : Env) (n1 n2 : String)
    (hl : pyLower n1 = pyLower n2) (h1 : n1 ≠ "") (h2 : n2 ≠ "") :
    get_profile_section env n1 = get_profile_section env n2 ∧
    get_project_details env n1 = get_project_details env n2 := by
  constructor
  · unfold get_profile_section
    rw [if_neg h1, if_neg h2, hl]
  · unfold get_project_details
    rw [if_neg h1, if_neg h2, hl]

/-- C5 (witness): "SKILLS" and "skills" agree in both lookups. -/
theorem C5_case_insensitive_lookup_witness :
    get_profile_section okEnv "SKILLS" = get_profile_section okEnv "skills" ∧
    get_project_details okEnv "SKILLS" = get_project_details okEnv "skills" :=
  C5_case_insensitive_lookup okEnv "SKILLS" "skills" rfl (by decide) (by decide)

/- ----------------------------------------------------------------
   C6
   ---------------------------------------------------------------- -/

/-- C6 (counterexample): an empty `section_name` does not fail with an
InvalidArguments error — it returns a plain None, indistinguishable from
looking up an unknown section — and a present section is returned raw,
not wrapped with `status = success`. -/
theorem C6_counterexample :
    get_profile_section okEnv "" = Except.ok none ∧
    get_profile_section okEnv "no_such_section" = Except.ok none ∧
    get_profile_section okEnv "job_preferences" = Except.ok (some (Json.str "Remote")) :=
  ⟨rfl, rfl, rfl⟩

theorem sectionScan_mem (items : List (String × Json)) (normalized : String) (v : Json)
    (h : sectionScan items normalized = some v) : v ∈ items.map Prod.snd := by
  induction items with
  | nil => simp [sectionScan] at h
  | cons kv rest ih =>
    obtain ⟨k0, v0⟩ := kv
    by_cases hk : pyLower k0 = normalized
    · simp only [sectionScan, if_pos hk] at h
      obtain rfl := Option.some.inj h
      exact List.mem_cons_self _ _
    · simp only [sectionScan, if_neg hk] at h
      exact List.mem_cons_of_mem _ (ih h)

/-- C6 (amended): an empty `section_name` returns None without touching
the profile (no InvalidArguments failure is raised), and for a non-empty
name any value returned is one of the stored section values, unchanged —
never a `status = success` wrapper. -/
theorem C6_empty_none_and_raw_delegation (env : Env) :
    get_profile_section env "" = Except.ok none ∧
    (∀ items name v, env.profileFile = Except.ok (Json.obj items) → name ≠ "" →
      get_profile_section env name = Except.ok (some v) → v ∈ items.map Prod.snd) := by
  constructor
  · rfl
  · intro items name v hp hn hv
    unfold get_profile_section at hv
    rw [if_neg hn] at hv
    unfold load_profile at hv
    rw [hp] at hv
    dsimp only at hv
    exact sectionScan_mem items _ v (Except.ok.inj hv)

/-- C6 (witness): the empty lookup returns None, and the value returned
for "Education" is the stored education section itself. -/
theorem C6_empty_none_and_raw_delegation_witness :
    get_profile_section okEnv "" = Except.ok none ∧
    Json.arr [eduEntry] ∈ sampleProfileFields.map Prod.snd :=
  ⟨(C6_empty_none_and_raw_delegation okEnv).1,
   (C6_empty_none_and_raw_delegation okEnv).2 sampleProfileFields "Education"
     (Json.arr [eduEntry]) rfl (by decide) rfl⟩

/- ----------------------------------------------------------------
   C7
   ---------------------------------------------------------------- -/

/-- C7 (counterexample): on a recruiter-intent turn whose model call
fails, `run_agent` does not return the fixed check-the-model-backend
apology: the extraction failure is swallowed and the user is asked the
follow-up lead questions instead. -/
theorem C7_counterexample :
    run_agent failChatEnv recruiterMsg [] 0 =
      Except.ok ({ response := followUpReply, lead_logged := false,
                   lead_payload := none }, 1) ∧
    followUpReply ≠ modelDownReply :=
  ⟨rfl, by decide⟩

/-- C7 (amended): when the model call fails, no exception escapes
`run_agent`, but the fixed Ollama apology is returned only on Q&A
(non-recruiter) turns whose profile context builds; on recruiter turns
the follow-up request for lead details is returned instead. -/
theorem C7_model_failure_handling (env : Env) (m : String)
    (hist : List (String × String)) (n : Nat) (e : PyErr) (ctx : String)
    (hchat : env.chat n = Except.error e) :
    (looks_like_recruiter_message m = false →
      build_profile_context env m = Except.ok ctx →
      run_agent env m hist n =
        Except.ok ({ response := modelDownReply, lead_logged := false,
                     lead_payload := none }, n + 1)) ∧
    (looks_like_recruiter_message m = true →
      run_agent env m hist n =
        Except.ok ({ response := followUpReply, lead_logged := false,
                     lead_payload := none }, n + 1)) := by
  constructor
  · intro hr hb
    unfold run_agent
    rw [if_neg (by simp [hr])]
    unfold answer_with_profile
    rw [hb]
    dsimp only
    rw [hchat]
    rfl
  · intro hr
    unfold run_agent
    rw [if_pos hr]
    have hex : extract_recruiter_lead env n m = ((none, ""), n + 1) := by
      unfold extract_recruiter_lead
      rw [hchat]
    rw [hex]
    rfl

/-- C7 (witness): the two behaviours of the amended theorem on the
failing-model environment. -/
theorem C7_model_failure_handling_witness :
    run_agent failChatEnv "hello" [] 0 =
      Except.ok ({ response := modelDownReply, lead_logged := false,
                   lead_payload := none }, 1) ∧
    run_agent failChatEnv recruiterMsg [] 0 =
      Except.ok ({ response := followUpReply, lead_logged := false,
                   lead_payload := none }, 1) :=
  ⟨(C7_model_failure_handling failChatEnv "hello" [] 0 PyErr.otherError "" rfl).1 rfl rfl,
   (C7_model_failure_handling failChatEnv recruiterMsg [] 0 PyErr.otherError "" rfl).2 rfl⟩

/- ----------------------------------------------------------------
   C8
   ---------------------------------------------------------------- -/

/-- C8 (counterexample): the stored project is named "ml " (trailing
space); "ML " matches it case-insensitively (identical lowercasings), yet
`get_project_details` returns None, because the query — but not the
stored name — is also whitespace-stripped before comparison. -/
theorem C8_counterexample :
    dictLookup wsProjFields "name" = some (Json.str "ml ") ∧
    pyLower "ML " = pyLower "ml " ∧
    get_project_details wsProjEnv "ML " = Except.ok none :=
  ⟨rfl, rfl, rfl⟩

theorem projectScan_finds (projs : List Json) (normalized : String) (q : Json)
    (hclean : projs.all cleanProject = true)
    (hq : q ∈ projs)
    (hmatch : projNameMatches normalized q = true)
    (huniq : ∀ p, p ∈ projs → projNameMatches normalized p = true → p = q) :
    projectScan projs normalized = Except.ok (some q) := by
  induction projs with
  | nil => cases hq
  | cons p0 rest ih =>
    rw [List.all_cons, Bool.and_eq_true] at hclean
    obtain ⟨hc0, hcr⟩ := hclean
    cases p0 with
    | obj fields =>
      cases hn : (dictLookup fields "name").getD (Json.str "") with
      | str s =>
        simp only [projectScan]
        rw [hn]
        dsimp only
        by_cases hm : pyLower s = normalized
        · rw [if_pos hm]
          have hqe : Json.obj fields = q :=
            huniq (Json.obj fields) (List.mem_cons_self _ _)
              (by simp [projNameMatches, hn, hm])
          rw [hqe]
        · rw [if_neg hm]
          have hq2 : q ∈ rest := by
            rcases List.mem_cons.mp hq with h | h
            · subst h
              simp [projNameMatches, hn] at hmatch
              exact absurd hmatch hm
            · exact h
          exact ih hcr hq2 (fun p hp hm2 => huniq p (List.mem_cons_of_mem _ hp) hm2)
      | null => simp [cleanProject, hn] at hc0
      | jbool b => simp [cleanProject, hn] at hc0
      | num k => simp [cleanProject, hn] at hc0
      | arr elems => simp [cleanProject, hn] at hc0
      | obj fs => simp [cleanProject, hn] at hc0
    | null => simp [cleanProject] at hc0
    | jbool b => simp [cleanProject] at hc0
    | num k => simp [cleanProject] at hc0
    | str s => simp [cleanProject] at hc0
    | arr elems => simp [cleanProject] at hc0

/-- C8 (amended): if some stored project record (in a scan-safe project
list) has a name whose lowercasing equals the lowercased-and-stripped
query, and it is the only such record, `get_project_details` returns
exactly that stored record, unchanged.  Matching lowercases the stored
name but lowercases AND strips the query (see the counterexample for the
whitespace discrepancy the original claim overlooks). -/
theorem C8_match_returns_record (env : Env) (X : String)
    (items : List (String × Json)) (projs : List Json) (q : Json)
    (hp : env.profileFile = Except.ok (Json.obj items))
    (hprojs : dictLookup items "projects" = some (Json.arr projs))
    (hX : X ≠ "")
    (hclean : projs.all cleanProject = true)
    (hq : q ∈ projs)
    (hmatch : projNameMatches (pyStrip (pyLower X)) q = true)
    (huniq : ∀ p, p ∈ projs → projNameMatches (pyStrip (pyLower X)) p = true → p = q) :
    get_project_details env X = Except.ok (some q) := by
  unfold get_project_details
  rw [if_neg hX]
  unfold load_profile
  rw [hp]
  dsimp only
  rw [hprojs]
  simp only [Option.getD_some, pyIter]
  exact projectScan_finds projs _ q hclean hq hmatch huniq

/-- C8 (witness): "churn model" retrieves the stored "Churn Model"
record unchanged. -/
theorem C8_match_returns_record_witness :
    get_project_details okEnv "churn model" =
      Except.ok (some (Json.obj sampleProjectFields)) :=
  C8_match_returns_record okEnv "churn model" sampleProfileFields
    [Json.obj sampleProjectFields] (Json.obj sampleProjectFields)
    rfl rfl (by decide) rfl (List.mem_cons_self _ _) rfl
    (fun p hp _ => List.mem_singleton.mp hp)

/- ----------------------------------------------------------------
   C9
   ---------------------------------------------------------------- -/

/-- C9 (counterexample): on a recruiter-intent turn whose extraction
model answers the valid JSON `[1]` — a truthy non-dict — `run_agent`
raises AttributeError instead of returning a response dictionary: the
claimed "for every input" result shape does not hold. -/
theorem C9_counterexample :
    run_agent listLeadEnv recruiterMsg [] 0 = Except.error PyErr.attributeError :=
  rfl

theorem data_eq_nil_eq_empty (a : String) (h : a.data = []) : a = "" := by
  cases a with
  | mk cs => subst h; rfl

theorem append_ne_empty_left (a b : String) (ha : a ≠ "") : a ++ b ≠ "" := by
  intro h
  have hd := congrArg String.data h
  rw [String.data_append] at hd
  exact ha (data_eq_nil_eq_empty a (List.append_eq_nil.mp hd).1)

theorem successReply_ne_empty (fields : List (String × Json)) :
    successReply fields ≠ "" := by
  unfold successReply
  repeat
    apply append_ne_empty_left
  decide

theorem answer_with_profile_ne_empty (env : Env) (calls : Nat) (m : String)
    (hist : List (String × String)) (s : String) (c : Nat)
    (ha : answer_with_profile env calls m hist = Except.ok (s, c)) : s ≠ "" := by
  unfold answer_with_profile at ha
  cases hb : build_profile_context env m with
  | error e => rw [hb] at ha; simp at ha
  | ok ctx =>
    rw [hb] at ha
    dsimp only at ha
    cases hcall : env.chat calls with
    | error e =>
      rw [hcall] at ha
      have hpair := Except.ok.inj ha
      have h1 : modelDownReply = s := congrArg Prod.fst hpair
      rw [← h1]
      decide
    | ok raw =>
      rw [hcall] at ha
      dsimp only at ha
      by_cases hemp : pyStrip raw = ""
      · rw [if_pos hemp] at ha
        have hpair := Except.ok.inj ha
        have h1 : rephraseReply = s := congrArg Prod.fst hpair
        rw [← h1]
        decide
      · rw [if_neg hemp] at ha
        have hpair := Except.ok.inj ha
        have h1 : pyStrip raw = s := congrArg Prod.fst hpair
        rw [← h1]
        exact hemp

theorem run_agent_ok_cases (env : Env) (m : String) (hist : List (String × String))
    (n n' : Nat) (tr : TurnResult)
    (hrun : run_agent env m hist n = Except.ok (tr, n')) :
    (∃ fields payload, tr = { response := successReply fields, lead_logged := true,
                              lead_payload := some payload }) ∨
    tr = { response := followUpReply, lead_logged := false, lead_payload := none } ∨
    tr = { response := loggingIssueReply, lead_logged := false, lead_payload := none } ∨
    (∃ s c, answer_with_profile env n m hist = Except.ok (s, c) ∧
      tr = { response := s, lead_logged := false, lead_payload := none }) := by
  unfold run_agent at hrun
  by_cases hr : looks_like_recruiter_message m = true
  case neg =>
    rw [if_neg hr] at hrun
    cases ha : answer_with_profile env n m hist with
    | error e => rw [ha] at hrun; simp [qa_turn] at hrun
    | ok p =>
      obtain ⟨answer, c⟩ := p
      rw [ha] at hrun
      simp only [qa_turn] at hrun
      have hpair := Except.ok.inj hrun
      have h1 : ({ response := answer, lead_logged := false,
                   lead_payload := none } : TurnResult) = tr := congrArg Prod.fst hpair
      exact Or.inr (Or.inr (Or.inr ⟨answer, c, rfl, h1.symm⟩))
  case pos =>
    rw [if_pos hr] at hrun
    rcases hex : extract_recruiter_lead env n m with ⟨⟨l, raw⟩, c⟩
    rw [hex] at hrun
    dsimp only at hrun
    cases l with
    | none =>
      simp only [recruiter_turn] at hrun
      have hpair := Except.ok.inj hrun
      have h1 : ({ response := followUpReply, lead_logged := false,
                   lead_payload := none } : TurnResult) = tr := congrArg Prod.fst hpair
      exact Or.inr (Or.inl h1.symm)
    | some lead =>
      simp only [recruiter_turn] at hrun
      by_cases ht : lead.truthy = true
      case neg =>
        rw [if_neg ht] at hrun
        have hpair := Except.ok.inj hrun
        have h1 : ({ response := followUpReply, lead_logged := false,
                     lead_payload := none } : TurnResult) = tr := congrArg Prod.fst hpair
        exact Or.inr (Or.inl h1.symm)
      case pos =>
        rw [if_pos ht] at hrun
        cases hmin : has_minimum_lead_fields lead with
        | error e => rw [hmin] at hrun; simp at hrun
        | ok b =>
          rw [hmin] at hrun
          cases b with
          | false =>
            dsimp only at hrun
            have hpair := Except.ok.inj hrun
            have h1 : ({ response := followUpReply, lead_logged := false,
                         lead_payload := none } : TurnResult) = tr :=
              congrArg Prod.fst hpair
            exact Or.inr (Or.inl h1.symm)
          | true =>
            dsimp only at hrun
            cases hbr : recruiter_success_branch env lead with
            | error e =>
              rw [hbr] at hrun
              dsimp only at hrun
              have hpair := Except.ok.inj hrun
              have h1 : ({ response := loggingIssueReply, lead_logged := false,
                           lead_payload := none } : TurnResult) = tr :=
                congrArg Prod.fst hpair
              exact Or.inr (Or.inr (Or.inl h1.symm))
            | ok result =>
              rw [hbr] at hrun
              dsimp only at hrun
              have hpair := Except.ok.inj hrun
              have h1 : result = tr := congrArg Prod.fst hpair
              unfold recruiter_success_branch at hbr
              cases hlr : log_recruiter_lead env lead with
              | error e => rw [hlr] at hbr; simp at hbr
              | ok logResult =>
                rw [hlr] at hbr
                dsimp only at hbr
                cases had : asDict lead with
                | error e => rw [had] at hbr; simp at hbr
                | ok fields =>
                  rw [had] at hbr
                  dsimp only at hbr
                  have h2 := Except.ok.inj hbr
                  exact Or.inl ⟨fields, dictMerge fields logResult, (h1.symm.trans h2.symm)⟩

/-- C9 (amended): whenever `run_agent` returns normally, the result has
exactly the keys `response`, `lead_logged`, `lead_payload` (by the shape
of `TurnResult`), the response text is non-empty, `lead_logged = false`
implies `lead_payload = None`, and `lead_logged = true` implies the
payload is present; however the "for every input" part of the claim fails
because `run_agent` can raise instead of returning (see the
counterexample). -/
theorem C9_result_shape (env : Env) (m : String) (hist : List (String × String))
    (n n' : Nat) (tr : TurnResult)
    (hrun : run_agent env m hist n = Except.ok (tr, n')) :
    tr.response ≠ "" ∧ (tr.lead_logged = false → tr.lead_payload = none) ∧
    (tr.lead_logged = true → tr.lead_payload.isSome = true) := by
  rcases run_agent_ok_cases env m hist n n' tr hrun with
    ⟨fields, payload, rfl⟩ | rfl | rfl | ⟨s, c, ha, rfl⟩
  · exact ⟨successReply_ne_empty fields, fun h => Bool.noConfusion h, fun _ => rfl⟩
  · exact ⟨by decide, fun _ => rfl, fun h => Bool.noConfusion h⟩
  · exact ⟨by decide, fun _ => rfl, fun h => Bool.noConfusion h⟩
  · exact ⟨answer_with_profile_ne_empty env n m hist s c ha, fun _ => rfl,
      fun h => Bool.noConfusion h⟩

/-- C9 (witness): the amended shape facts evaluated on the Q&A turn of
`loopEnv`. -/
theorem C9_result_shape_witness :
    loopTurn.response ≠ "" ∧
    (loopTurn.lead_logged = false → loopTurn.lead_payload = none) ∧
    (loopTurn.lead_logged = true → loopTurn.lead_payload.isSome = true) :=
  C9_result_shape loopEnv "hello" [] 0 1 loopTurn rfl

end AgentProfile
